import Mathlib

/-!
Shallow embedding of the keyez-app-backend messaging core.

Sources embedded below:
- src/models/User.js          (session methods, security-violation tracking)
- src/models/Group.js, src/models/GroupMessage.js, Message model (src/unnamed/part_005)
- src/routes/chat.js          (direct send, group send, mark-read routes)
- src/routes/phoneAuth.js     (login, validate-session)
- src/services/firebaseUnreadService.js (unread counters in the realtime store)
- src/unnamed/part_012        (SimpleNotificationService.sendMessageNotification)

Machine integers in the source are JavaScript numbers used only as counters,
ids and timestamps; they are modelled as Nat. Fallible route handlers are
modelled as Except returning the HTTP-level error outcome. Field names follow
the source except where Lean reserves the word (the message field written
from in JavaScript is written fromId here, and to is written toId).
-/

/-- One entry of securityProfile.securityViolations (src/models/User.js).
The enum value of the type field is kept as a string as in the schema. -/
structure ViolationEvent where
  vtype : String
  timestamp : Nat
  notifiedAdmin : Bool
deriving Repr, DecidableEq

/-- securityProfile subdocument of the User schema (src/models/User.js). -/
structure SecurityProfile where
  screenshotAttempts : Nat
  copyAttempts : Nat
  securityViolations : List ViolationEvent
  isBlocked : Bool
  blockReason : Option String
  blockedAt : Option Nat
deriving Repr, DecidableEq

/-- activeSession subdocument of the User schema (src/models/User.js). -/
structure ActiveSession where
  deviceFingerprint : String
  sessionToken : String
  loginTime : Nat
  isActive : Bool
deriving Repr, DecidableEq

/-- One fcmTokens entry of the User schema (src/models/User.js). -/
structure FcmToken where
  token : String
  isActive : Bool
deriving Repr, DecidableEq

/-- The User document (src/models/User.js), restricted to the fields the
embedded operations read or write. -/
structure User where
  id : Nat
  username : String
  isAdmin : Bool
  firebaseUid : String
  activeSession : Option ActiveSession
  fcmTokens : List FcmToken
  securityProfile : SecurityProfile
deriving Repr, DecidableEq

/-- userSchema.methods.isUserBlocked (src/models/User.js line 305). -/
def User.isUserBlocked (u : User) : Bool :=
  u.securityProfile.isBlocked

/-- userSchema.methods.validateDeviceSession (src/models/User.js lines 249-258). -/
def User.validateDeviceSession (u : User) (deviceFingerprint sessionToken : String) : Bool :=
  if u.isAdmin then
    true
  else
    match u.activeSession with
    | none => false
    | some s =>
        s.isActive && s.deviceFingerprint == deviceFingerprint
          && s.sessionToken == sessionToken

/-- userSchema.methods.createDeviceSession (src/models/User.js lines 234-246):
for a regular user the single active session is replaced wholesale; for an
admin nothing is written. -/
def User.createDeviceSession (u : User) (deviceFingerprint sessionToken : String)
    (time : Nat) : User :=
  if u.isAdmin then u
  else
    let s : ActiveSession :=
      { deviceFingerprint := deviceFingerprint
        sessionToken := sessionToken
        loginTime := time
        isActive := true }
    { u with activeSession := some s }

/-- userSchema.methods.revokeDeviceSession (src/models/User.js lines 261-266). -/
def User.revokeDeviceSession (u : User) : User :=
  match u.activeSession with
  | none => u
  | some s => { u with activeSession := some { s with isActive := false } }

/-- userSchema.methods.recordSecurityViolation (src/models/User.js lines
269-302): increments the type-specific counter, appends the event, and
auto-blocks once the violation log reaches length 3. -/
def User.recordSecurityViolation (u : User) (vtype : String) (time : Nat) : User :=
  let sp := u.securityProfile
  let sp :=
    if vtype = "screenshot_attempt" then
      { sp with screenshotAttempts := sp.screenshotAttempts + 1 }
    else if vtype = "copy_attempt" then
      { sp with copyAttempts := sp.copyAttempts + 1 }
    else sp
  let sp :=
    { sp with securityViolations :=
        sp.securityViolations ++
          [{ vtype := vtype, timestamp := time, notifiedAdmin := false }] }
  let sp :=
    if 3 ≤ sp.securityViolations.length then
      { sp with isBlocked := true
                blockReason := some "Multiple security violations"
                blockedAt := some time }
    else sp
  { u with securityProfile := sp }

/-- userSchema.methods.getActiveFcmTokens (src/models/User.js lines 357-361). -/
def User.getActiveFcmTokens (u : User) : List String :=
  (u.fcmTokens.filter (fun t => t.isActive)).map (fun t => t.token)

/-!
Unread counters (src/services/firebaseUnreadService.js).

The Firebase Realtime Database subtree unread_counts/{userId}/direct/{partnerId}
and unread_counts/{userId}/groups/{groupId} is modelled as an association list
from the pair (userId, sourceId) to the stored scalar. ref.once reads the
current node (absent reads as 0 through the JS expression snapshot.val() || 0),
ref.set overwrites the node and ref.remove deletes it.
-/

/-- One table of the unread_counts tree: association list keyed by the pair
(userId, sourceId). -/
def FbTable : Type := List ((Nat × Nat) × Nat)

instance : DecidableEq FbTable := by
  unfold FbTable
  infer_instance

/-- Read of a node: the first entry stored at the key, if any. -/
def fbLookup : FbTable → Nat × Nat → Option Nat
  | [], _ => none
  | (k, v) :: rest, key => if k = key then some v else fbLookup rest key

/-- ref.remove on a node path: deletes every entry at the key. -/
def fbErase : FbTable → Nat × Nat → FbTable
  | [], _ => []
  | (k, v) :: rest, key =>
      if k = key then fbErase rest key else (k, v) :: fbErase rest key

/-- ref.set on a node path: overwrite the node with the given scalar. -/
def fbSet (t : FbTable) (key : Nat × Nat) (v : Nat) : FbTable :=
  (key, v) :: fbErase t key

/-- snapshot.val() || 0 : an absent node reads as 0. -/
def fbGet (t : FbTable) (key : Nat × Nat) : Nat :=
  (fbLookup t key).getD 0

/-- The read-modify-write increment used by both incrementDirectUnreadCount
(src/services/firebaseUnreadService.js lines 57-76) and
incrementGroupUnreadCount (lines 84-108): read the current value with
default 0, write back the successor. -/
def fbInc (t : FbTable) (key : Nat × Nat) : FbTable :=
  fbSet t key (fbGet t key + 1)

/-- unread_counts state: the direct table keyed by (userId, partnerId) and the
groups table keyed by (userId, groupId). The derived total node written by
updateTotalUnreadCount is recomputed from these two tables and carried
implicitly. -/
structure UnreadStore where
  direct : FbTable
  groups : FbTable
deriving DecidableEq

/-- incrementDirectUnreadCount(userId, fromUserId)
(src/services/firebaseUnreadService.js lines 57-76). -/
def incrementDirectUnreadCount (s : UnreadStore) (userId fromUserId : Nat) : UnreadStore :=
  { s with direct := fbInc s.direct (userId, fromUserId) }

/-- incrementGroupUnreadCount(groupId, fromUserId, memberIds)
(src/services/firebaseUnreadService.js lines 84-108): every member other than
the sender gets its (member, group) node incremented once. -/
def incrementGroupUnreadCount (s : UnreadStore) (groupId fromUserId : Nat)
    (memberIds : List Nat) : UnreadStore :=
  let recipients := memberIds.filter (fun m => m ≠ fromUserId)
  let t := recipients.foldl (fun t m => fbInc t (m, groupId)) s.groups
  { s with groups := t }

/-- clearDirectUnreadCount(userId, partnerId)
(src/services/firebaseUnreadService.js lines 115-131): ref.remove on the node. -/
def clearDirectUnreadCount (s : UnreadStore) (userId partnerId : Nat) : UnreadStore :=
  { s with direct := fbErase s.direct (userId, partnerId) }

/-- clearGroupUnreadCount(userId, groupId)
(src/services/firebaseUnreadService.js lines 138-154): ref.remove on the node. -/
def clearGroupUnreadCount (s : UnreadStore) (userId groupId : Nat) : UnreadStore :=
  { s with groups := fbErase s.groups (userId, groupId) }

/-- getDirectUnreadCount(userId, partnerId)
(src/services/firebaseUnreadService.js lines 193-206). -/
def getDirectUnreadCount (s : UnreadStore) (userId partnerId : Nat) : Nat :=
  fbGet s.direct (userId, partnerId)

/-- getGroupUnreadCount(userId, groupId)
(src/services/firebaseUnreadService.js lines 214-227). -/
def getGroupUnreadCount (s : UnreadStore) (userId groupId : Nat) : Nat :=
  fbGet s.groups (userId, groupId)

/-!
Durable message models. The Message schema is the first model of
src/unnamed/part_005; GroupMessage is src/models/GroupMessage.js. Neither
schema declares an imageUrl path, so the imageUrl value passed by the routes
is dropped by the schema (mongoose strict mode) and only text and attachments
are persisted; the pre-validate hook of both schemas rejects a document whose
text is falsy while attachments is empty.
-/

/-- A persisted direct message (Message schema, src/unnamed/part_005 lines
3-96). Attachments are carried as opaque references; readBy entries pair the
reader with the read time. -/
structure Msg where
  id : Nat
  fromId : Nat
  toId : Nat
  text : Option String
  attachments : List String
  timestamp : Nat
  readBy : List (Nat × Nat)
deriving Repr, DecidableEq

/-- A persisted group message (src/models/GroupMessage.js). -/
structure GroupMsg where
  id : Nat
  group : Nat
  fromId : Nat
  text : Option String
  attachments : List String
  timestamp : Nat
deriving Repr, DecidableEq

/-- A group as consumed by the chat routes (the Group model of
src/models/Group.js; named ChatGroup here because Mathlib reserves Group). -/
structure ChatGroup where
  id : Nat
  name : String
  members : List Nat
  isActive : Bool
deriving Repr, DecidableEq

/-- Truth of a JS string-or-undefined value in a boolean position: undefined
and the empty string are falsy. -/
def textFalsy : Option String → Bool
  | none => true
  | some s => s = ""

/-- The pre-validate hook shared by the Message schema (src/unnamed/part_005
lines 99-104) and GroupMessage (src/models/GroupMessage.js lines 91-96):
either text or attachments must be present for save to succeed. -/
def msgBodyValid (text : Option String) (attachments : List String) : Bool :=
  !(textFalsy text && attachments.isEmpty)

/-- The whole backend state touched by the chat routes: the user directory,
the two durable collections, the groups collection, the realtime broadcast
tree (path paired with the pushed message id) and the unread_counts tree. -/
structure ChatState where
  users : List User
  messages : List Msg
  groupMessages : List GroupMsg
  groups : List ChatGroup
  broadcast : List (String × Nat)
  unread : UnreadStore
deriving DecidableEq

/-- User.findById as used by the routes. -/
def findUser (st : ChatState) (uid : Nat) : Option User :=
  st.users.find? (fun u => u.id = uid)

/-- Group.findById as used by the routes. -/
def findGroup (st : ChatState) (gid : Nat) : Option ChatGroup :=
  st.groups.find? (fun g => g.id = gid)

/-- The error outcomes the embedded routes can return, labelled with the
HTTP status the source responds with. -/
inductive SendErr where
  /-- 400 Recipient is required -/
  | recipientRequired
  /-- 400 Either text or imageUrl is required -/
  | emptyBody
  /-- 400 Message cannot be more than 1000 characters -/
  | textTooLong
  /-- 404 Recipient not found -/
  | recipientNotFound
  /-- 403 Regular users can only send messages to administrators -/
  | forbiddenRegularToNonAdmin
  /-- 500 Failed to send message: message.save() rejected the document -/
  | saveFailed
  /-- 404 Group not found -/
  | groupNotFound
  /-- 400 Group is inactive -/
  | groupInactive
deriving Repr, DecidableEq

/-- JS String.prototype.trim: strip whitespace from both ends. Implemented
over the character list so that it evaluates by kernel reduction. -/
def jsTrim (s : String) : String :=
  String.mk (((s.data.dropWhile Char.isWhitespace).reverse.dropWhile
    Char.isWhitespace).reverse)

/-- JS normalization in both send routes:
typeof text === 'string' ? text.trim() : ''. -/
def normalizeField (s : Option String) : String :=
  match s with
  | some s => jsTrim s
  | none => ""

/-- Lexicographic comparison of character lists by code point, the order the
JS default Array.prototype.sort applies to the two id strings. -/
def charListLe : List Char → List Char → Bool
  | [], _ => true
  | _ :: _, [] => false
  | a :: as, b :: bs =>
      if a.val < b.val then true
      else if b.val < a.val then false
      else charListLe as bs

/-- String comparison over the underlying character lists. -/
def strLe (a b : String) : Bool :=
  charListLe a.data b.data

/-- The deterministic broadcast path of a direct conversation
(src/routes/chat.js line 53 and line 186): the two decimal id strings sorted
lexicographically and joined with an underscore under chats/. -/
def directChatPath (a b : Nat) : String :=
  let sa := toString a
  let sb := toString b
  if strLe sa sb then "chats/" ++ sa ++ "_" ++ sb else "chats/" ++ sb ++ "_" ++ sa

/-- The 201 payload of the direct-send route that the claims inspect:
the persisted message id, realtime.firebasePath, and whether the FCM
notification step actually attempted a push. -/
structure SendOk where
  messageId : Nat
  firebasePath : String
  notificationAttempted : Bool
deriving Repr, DecidableEq

/-- SimpleNotificationService.sendMessageNotification (src/unnamed/part_012
lines 11-50) attempts a push exactly when the recipient holds at least one
active FCM token; the recipient role is never consulted. -/
def sendMessageNotificationAttempts (recipient : User) : Bool :=
  !recipient.getActiveFcmTokens.isEmpty

/-- The 201 payload of the group-send route that the claims inspect. -/
structure GroupSendOk where
  messageId : Nat
  firebasePath : String
deriving Repr, DecidableEq

/-- router.post(/send) of src/routes/chat.js lines 98-199, after
authentication has bound the sender. publishFails forces the broadcast
publish step (pushToFirebase, lines 39-74) to throw; that helper catches its
own exception, so the flag only decides whether the broadcast tree gains the
entry. The save step enforces the Message pre-validate hook; because the
schema has no imageUrl path, the route-level imageUrl value is not persisted
and cannot satisfy the hook. Every error path leaves the state unchanged. -/
def sendDirect (st : ChatState) (sender : User) (reqTo : Option Nat)
    (reqText reqImageUrl : Option String) (publishFails : Bool) (now : Nat) :
    Except SendErr SendOk × ChatState :=
  match reqTo with
  | none => (.error .recipientRequired, st)
  | some toId =>
    let normalizedText := normalizeField reqText
    let normalizedImageUrl := normalizeField reqImageUrl
    if normalizedText = "" ∧ normalizedImageUrl = "" then
      (.error .emptyBody, st)
    else if 1000 < normalizedText.length then
      (.error .textTooLong, st)
    else
      match findUser st toId with
      | none => (.error .recipientNotFound, st)
      | some recipient =>
        if !sender.isAdmin ∧ !recipient.isAdmin then
          (.error .forbiddenRegularToNonAdmin, st)
        else
          let text : Option String :=
            if normalizedText = "" then none else some normalizedText
          if !msgBodyValid text [] then
            (.error .saveFailed, st)
          else
            let msg : Msg :=
              { id := st.messages.length
                fromId := sender.id
                toId := toId
                text := text
                attachments := []
                timestamp := now
                readBy := [] }
            let path := directChatPath sender.id toId
            let broadcast :=
              if publishFails then st.broadcast else st.broadcast ++ [(path, msg.id)]
            let st :=
              { st with
                  messages := st.messages ++ [msg]
                  broadcast := broadcast
                  unread := incrementDirectUnreadCount st.unread toId sender.id }
            (.ok { messageId := msg.id
                   firebasePath := path
                   notificationAttempted := sendMessageNotificationAttempts recipient },
             st)

/-- router.post(/groups/:groupId/send) of src/routes/chat.js lines 202-279,
after authentication has bound the sender. The route checks the group exists
and is active, and nothing else about the sender: group membership is never
consulted. Unread counters are incremented for every member except the
sender; every error path leaves the state unchanged. -/
def sendGroup (st : ChatState) (sender : User) (groupId : Nat)
    (reqText reqImageUrl : Option String) (publishFails : Bool) (now : Nat) :
    Except SendErr GroupSendOk × ChatState :=
  let normalizedText := normalizeField reqText
  let normalizedImageUrl := normalizeField reqImageUrl
  if normalizedText = "" ∧ normalizedImageUrl = "" then
    (.error .emptyBody, st)
  else if 1000 < normalizedText.length then
    (.error .textTooLong, st)
  else
    match findGroup st groupId with
    | none => (.error .groupNotFound, st)
    | some group =>
      if !group.isActive then
        (.error .groupInactive, st)
      else
        let text : Option String :=
          if normalizedText = "" then none else some normalizedText
        if !msgBodyValid text [] then
          (.error .saveFailed, st)
        else
          let msg : GroupMsg :=
            { id := st.groupMessages.length
              group := groupId
              fromId := sender.id
              text := text
              attachments := []
              timestamp := now }
          let path := "group_chats/" ++ toString groupId
          let broadcast :=
            if publishFails then st.broadcast else st.broadcast ++ [(path, msg.id)]
          let st :=
            { st with
                groupMessages := st.groupMessages ++ [msg]
                broadcast := broadcast
                unread := incrementGroupUnreadCount st.unread groupId sender.id group.members }
          (.ok { messageId := msg.id, firebasePath := path }, st)

/-- The authenticateUser middleware of src/routes/chat.js lines 14-36: it
verifies the JWT and that the user still exists. It checks neither the
securityProfile.isBlocked flag nor the activeSession, so possession of an
unexpired JWT is sufficient. -/
def chatAuthenticate (st : ChatState) (tokenUserId : Nat) : Option User :=
  findUser st tokenUserId

/-- POST /api/chat/send including the authenticateUser middleware. The
middleware outcome is the Option layer: none is its 404 when the token user
no longer exists; otherwise the request proceeds to the handler. -/
def postSend (st : ChatState) (tokenUserId : Nat) (reqTo : Option Nat)
    (reqText reqImageUrl : Option String) (publishFails : Bool) (now : Nat) :
    Option (Except SendErr SendOk × ChatState) :=
  (chatAuthenticate st tokenUserId).map
    (fun sender => sendDirect st sender reqTo reqText reqImageUrl publishFails now)

/-- Message.findConversation (src/unnamed/part_005 lines 130-137): all
persisted messages between the two users, in either direction. -/
def findConversation (st : ChatState) (user1Id user2Id : Nat) : List Msg :=
  st.messages.filter
    (fun m => (m.fromId = user1Id ∧ m.toId = user2Id)
      ∨ (m.fromId = user2Id ∧ m.toId = user1Id))

/-- GroupMessage.findByGroup (src/models/GroupMessage.js lines 117-121). -/
def findByGroup (st : ChatState) (groupId : Nat) : List GroupMsg :=
  st.groupMessages.filter (fun m => m.group = groupId)

/-!
Session guard (src/routes/phoneAuth.js).
-/

/-- Error outcomes of the phone-auth routes, labelled with the HTTP status
and message of the source. -/
inductive AuthErr where
  /-- 404 User not found -/
  | userNotFound
  /-- 403 Account is blocked due to security violations -/
  | blocked
  /-- 401 Invalid credentials: the stored firebaseUid differs -/
  | invalidCredentials
  /-- 401 Invalid or expired session -/
  | invalidSession
deriving Repr, DecidableEq

/-- router.post(/login) of src/routes/phoneAuth.js lines 112-187, applied to
the user found by phone number. On success the returned user carries the new
session bound to the presented fingerprint; the issued JWT embeds the fresh
sessionToken. A prior active session from a different fingerprint is revoked
and one multiple_login_attempt violation is recorded before the new session
is created. -/
def loginUser (u : User) (firebaseUid deviceFingerprint newSessionToken : String)
    (time : Nat) : Except AuthErr User :=
  if u.isUserBlocked then
    .error .blocked
  else if u.firebaseUid ≠ firebaseUid then
    .error .invalidCredentials
  else
    let u1 :=
      match u.activeSession with
      | some s =>
          if s.isActive ∧ s.deviceFingerprint ≠ deviceFingerprint then
            (u.revokeDeviceSession).recordSecurityViolation "multiple_login_attempt" time
          else u
      | none => u
    .ok (u1.createDeviceSession deviceFingerprint newSessionToken time)

/-- router.get(/validate-session) of src/routes/phoneAuth.js lines 232-287,
applied to the user found from the decoded JWT: a blocked user is refused
first, then the presented fingerprint and sessionToken must match the live
session. -/
def validateSessionRequest (u : User) (deviceFingerprint sessionToken : String) :
    Except AuthErr Unit :=
  if u.isUserBlocked then
    .error .blocked
  else if !u.validateDeviceSession deviceFingerprint sessionToken then
    .error .invalidSession
  else
    .ok ()

/-- Count of multiple_login_attempt entries in a violation log. -/
def multipleLoginCount (u : User) : Nat :=
  (u.securityProfile.securityViolations.filter
    (fun v => v.vtype = "multiple_login_attempt")).length

/-- Whether a route outcome is the 201 success. -/
def isOkE {A : Type} (r : Except SendErr A) : Bool :=
  match r with
  | .ok _ => true
  | .error _ => false

/-!
Concrete fixtures used by the witnesses and counterexamples below.
-/

/-- The empty security profile created at registration
(src/routes/phoneAuth.js lines 74-79). -/
def cleanProfile : SecurityProfile :=
  { screenshotAttempts := 0, copyAttempts := 0, securityViolations := [],
    isBlocked := false, blockReason := none, blockedAt := none }

/-- A concrete admin user without FCM tokens. -/
def adminAlice : User :=
  { id := 1, username := "alice", isAdmin := true, firebaseUid := "uidA",
    activeSession := none, fcmTokens := [], securityProfile := cleanProfile }

/-- A concrete regular user with a clean profile. -/
def regularBob : User :=
  { id := 2, username := "bob", isAdmin := false, firebaseUid := "uidB",
    activeSession := none, fcmTokens := [], securityProfile := cleanProfile }

/-- A security profile already auto-blocked after three violations. -/
def blockedProfile : SecurityProfile :=
  { screenshotAttempts := 2, copyAttempts := 1,
    securityViolations :=
      [{ vtype := "screenshot_attempt", timestamp := 1, notifiedAdmin := false },
       { vtype := "screenshot_attempt", timestamp := 2, notifiedAdmin := false },
       { vtype := "copy_attempt", timestamp := 3, notifiedAdmin := false }],
    isBlocked := true, blockReason := some "Multiple security violations",
    blockedAt := some 3 }

/-- A concrete blocked regular user. -/
def blockedCarol : User :=
  { id := 3, username := "carol", isAdmin := false, firebaseUid := "uidC",
    activeSession := none, fcmTokens := [], securityProfile := blockedProfile }

/-- A concrete admin user who registered an active FCM token
(User.addFcmToken allows admins to keep push tokens). -/
def adminDana : User :=
  { id := 4, username := "dana", isAdmin := true, firebaseUid := "uidD",
    activeSession := none, fcmTokens := [{ token := "tokD", isActive := true }],
    securityProfile := cleanProfile }

/-- Backend state holding the admin and the blocked regular user. -/
def stC1 : ChatState :=
  { users := [adminAlice, blockedCarol], messages := [], groupMessages := [],
    groups := [], broadcast := [], unread := { direct := [], groups := [] } }

/-- Backend state holding the admin and one clean regular user. -/
def stAB : ChatState :=
  { users := [adminAlice, regularBob], messages := [], groupMessages := [],
    groups := [], broadcast := [], unread := { direct := [], groups := [] } }

/-- An active group whose only member is the admin (user 1). -/
def groupG : ChatGroup :=
  { id := 5, name := "ops", members := [1], isActive := true }

/-- A deactivated group. -/
def groupOld : ChatGroup :=
  { id := 7, name := "old", members := [2], isActive := false }

/-- Backend state for the group counterexample: user 2 is not a member of
group 5, and group 7 is inactive. -/
def stC5 : ChatState :=
  { users := [adminAlice, regularBob], messages := [], groupMessages := [],
    groups := [groupG, groupOld], broadcast := [],
    unread := { direct := [], groups := [] } }

/-- An active three-member group. -/
def groupH : ChatGroup :=
  { id := 6, name := "floor", members := [1, 2, 3], isActive := true }

/-- Backend state for the group fan-out witness. -/
def stC8 : ChatState :=
  { users := [adminAlice, regularBob, blockedCarol], messages := [],
    groupMessages := [], groups := [groupH], broadcast := [],
    unread := { direct := [], groups := [] } }

/-- Backend state where the recipient is an admin holding an FCM token. -/
def stC9 : ChatState :=
  { users := [adminDana, regularBob], messages := [], groupMessages := [],
    groups := [], broadcast := [], unread := { direct := [], groups := [] } }

/-- Backend state holding only the admin, for the self-send counterexample. -/
def stC10 : ChatState :=
  { users := [adminAlice], messages := [], groupMessages := [], groups := [],
    broadcast := [], unread := { direct := [], groups := [] } }

/-- A regular user with exactly two prior recorded violations, one short of
the auto-block threshold. -/
def c3u0 : User :=
  { id := 9, username := "eve", isAdmin := false, firebaseUid := "uidE",
    activeSession := none, fcmTokens := [],
    securityProfile :=
      { screenshotAttempts := 0, copyAttempts := 0,
        securityViolations :=
          [{ vtype := "unauthorized_access", timestamp := 1, notifiedAdmin := false },
           { vtype := "unauthorized_access", timestamp := 2, notifiedAdmin := false }],
        isBlocked := false, blockReason := none, blockedAt := none } }

/-- c3u0 after the first login, from device d1. -/
def c3u1 : User :=
  ((loginUser c3u0 "uidE" "d1" "tokA" 0).toOption).getD c3u0

/-- c3u1 after the second login, from device d2. -/
def c3u2 : User :=
  ((loginUser c3u1 "uidE" "d2" "tokB" 1).toOption).getD c3u1

/-- The clean regular user bob after a first login from device d1. -/
def c3b1 : User :=
  ((loginUser regularBob "uidB" "d1" "tokA" 0).toOption).getD regularBob

/-- c3b1 after a second login from device d2. -/
def c3b2 : User :=
  ((loginUser c3b1 "uidB" "d2" "tokB" 1).toOption).getD c3b1

/-- A regular user with two prior violations, used by the C4 witness. -/
def c4u : User :=
  { id := 7, username := "u7", isAdmin := false, firebaseUid := "f7",
    activeSession := none, fcmTokens := [],
    securityProfile :=
      { screenshotAttempts := 0, copyAttempts := 1,
        securityViolations :=
          [{ vtype := "copy_attempt", timestamp := 1, notifiedAdmin := false },
           { vtype := "screenshot_attempt", timestamp := 2, notifiedAdmin := false }],
        isBlocked := false, blockReason := none, blockedAt := none } }

/-!
Lemmas about the realtime-store node operations.
-/

/-- After ref.remove, the node is gone. -/
theorem fbLookup_fbErase_self (t : FbTable) (k : Nat × Nat) :
    fbLookup (fbErase t k) k = none := by
  induction t with
  | nil => rfl
  | cons hd tl ih =>
      obtain ⟨k0, v⟩ := hd
      by_cases h : k0 = k
      · simpa [fbErase, h] using ih
      · simpa [fbErase, fbLookup, h] using ih

/-- ref.remove leaves every other node untouched. -/
theorem fbLookup_fbErase_other (t : FbTable) (k k' : Nat × Nat) (h : k' ≠ k) :
    fbLookup (fbErase t k) k' = fbLookup t k' := by
  induction t with
  | nil => rfl
  | cons hd tl ih =>
      obtain ⟨k0, v⟩ := hd
      by_cases h0 : k0 = k
      · subst h0
        simp [fbErase, fbLookup, ih, Ne.symm h]
      · by_cases h1 : k0 = k'
        · simp [fbErase, fbLookup, h, h0, h1]
        · simp [fbErase, fbLookup, h0, h1, ih]

/-- ref.set followed by a read of the same node returns the written value. -/
theorem fbGet_fbSet_self (t : FbTable) (k : Nat × Nat) (v : Nat) :
    fbGet (fbSet t k v) k = v := by
  simp [fbGet, fbSet, fbLookup]

/-- ref.set leaves every other node untouched. -/
theorem fbGet_fbSet_other (t : FbTable) (k k' : Nat × Nat) (v : Nat) (h : k' ≠ k) :
    fbGet (fbSet t k v) k' = fbGet t k' := by
  simp [fbGet, fbSet, fbLookup, Ne.symm h, fbLookup_fbErase_other t k k' h]

/-- The read-modify-write increment adds one to its own node. -/
theorem fbGet_fbInc_self (t : FbTable) (k : Nat × Nat) :
    fbGet (fbInc t k) k = fbGet t k + 1 := by
  simp [fbInc, fbGet_fbSet_self]

/-- The read-modify-write increment leaves every other node untouched. -/
theorem fbGet_fbInc_other (t : FbTable) (k k' : Nat × Nat) (h : k' ≠ k) :
    fbGet (fbInc t k) k' = fbGet t k' := by
  simp [fbInc, fbGet_fbSet_other t k k' _ h]

/-- ref.remove of a node that is absent leaves the table unchanged. -/
theorem fbErase_of_lookup_none (t : FbTable) (k : Nat × Nat)
    (h : fbLookup t k = none) : fbErase t k = t := by
  induction t with
  | nil => rfl
  | cons hd tl ih =>
      obtain ⟨k0, v⟩ := hd
      by_cases h0 : k0 = k
      · simp [fbLookup, h0] at h
      · simp [fbLookup, h0] at h
        simp [fbErase, h0, ih h]

/-- Recording a violation always appends exactly the new event. -/
theorem recordSecurityViolation_violations (u : User) (vtype : String) (time : Nat) :
    (u.recordSecurityViolation vtype time).securityProfile.securityViolations
      = u.securityProfile.securityViolations
          ++ [{ vtype := vtype, timestamp := time, notifiedAdmin := false }] := by
  unfold User.recordSecurityViolation
  dsimp only
  split_ifs <;> rfl

/-- The blocked flag after recording: set when the log has reached 3, else
carried over. -/
theorem recordSecurityViolation_isBlocked (u : User) (vtype : String) (time : Nat) :
    (u.recordSecurityViolation vtype time).securityProfile.isBlocked
      = if 3 ≤ u.securityProfile.securityViolations.length + 1 then true
        else u.securityProfile.isBlocked := by
  unfold User.recordSecurityViolation
  dsimp only
  split_ifs <;> simp_all [List.length_append]

/-- The block reason after recording. -/
theorem recordSecurityViolation_blockReason (u : User) (vtype : String) (time : Nat) :
    (u.recordSecurityViolation vtype time).securityProfile.blockReason
      = if 3 ≤ u.securityProfile.securityViolations.length + 1 then
          some "Multiple security violations"
        else u.securityProfile.blockReason := by
  unfold User.recordSecurityViolation
  dsimp only
  split_ifs <;> simp_all [List.length_append]

/-- The block timestamp after recording. -/
theorem recordSecurityViolation_blockedAt (u : User) (vtype : String) (time : Nat) :
    (u.recordSecurityViolation vtype time).securityProfile.blockedAt
      = if 3 ≤ u.securityProfile.securityViolations.length + 1 then some time
        else u.securityProfile.blockedAt := by
  unfold User.recordSecurityViolation
  dsimp only
  split_ifs <;> simp_all [List.length_append]

/-- C4: recording violations keeps isBlocked false while the violation log
holds at most 2 events; the record that brings the log to length 3 or more
sets isBlocked together with a non-null blockReason and blockedAt; and a
record operation never clears an isBlocked that is already set. -/
theorem c4_auto_block (u : User) (vtype : String) (time : Nat) :
    ((u.recordSecurityViolation vtype time).securityProfile.securityViolations.length
        = u.securityProfile.securityViolations.length + 1)
  ∧ (u.securityProfile.isBlocked = false →
      (u.recordSecurityViolation vtype time).securityProfile.securityViolations.length ≤ 2 →
      (u.recordSecurityViolation vtype time).securityProfile.isBlocked = false)
  ∧ (3 ≤ (u.recordSecurityViolation vtype time).securityProfile.securityViolations.length →
      (u.recordSecurityViolation vtype time).securityProfile.isBlocked = true
      ∧ (u.recordSecurityViolation vtype time).securityProfile.blockReason ≠ none
      ∧ (u.recordSecurityViolation vtype time).securityProfile.blockedAt ≠ none)
  ∧ (u.securityProfile.isBlocked = true →
      (u.recordSecurityViolation vtype time).securityProfile.isBlocked = true) := by
  have hv := recordSecurityViolation_violations u vtype time
  have hb := recordSecurityViolation_isBlocked u vtype time
  have hr := recordSecurityViolation_blockReason u vtype time
  have ha := recordSecurityViolation_blockedAt u vtype time
  have hlen : (u.recordSecurityViolation vtype time).securityProfile.securityViolations.length
      = u.securityProfile.securityViolations.length + 1 := by
    rw [hv, List.length_append]
    rfl
  refine ⟨hlen, ?_, ?_, ?_⟩
  · intro h0 h2
    rw [hlen] at h2
    rw [hb, if_neg (by omega)]
    exact h0
  · intro h3
    rw [hlen] at h3
    rw [hb, hr, ha, if_pos (by omega), if_pos (by omega), if_pos (by omega)]
    exact ⟨rfl, by simp, by simp⟩
  · intro h0
    rw [hb]
    split_ifs with h
    · rfl
    · exact h0

/-- C4 witness: a concrete user at 2 recorded violations gets blocked, with
reason and timestamp, by the third recorded violation. -/
theorem c4_auto_block_witness :
    (c4u.recordSecurityViolation "screenshot_attempt" 9).securityProfile.isBlocked = true
    ∧ (c4u.recordSecurityViolation "screenshot_attempt" 9).securityProfile.blockReason ≠ none
    ∧ (c4u.recordSecurityViolation "screenshot_attempt" 9).securityProfile.blockedAt ≠ none :=
  (c4_auto_block c4u "screenshot_attempt" 9).2.2.1 (by decide)

/-- C7: for every recipient and source, any number of increments followed by
one clear as the last applied operation leaves the stored counter absent, so
it reads as zero; the direct-table statement is given both for an explicit
chain of n increments and for an arbitrary prior store, which covers any
interleaving whose last applied operation is the clear; and clearing a source
whose node is absent (never incremented) is a no-op that leaves the store
unchanged and returns without error. -/
theorem c7_counter_convergence (s s2 : UnreadStore) (userId sourceId : Nat) (n : Nat) :
    (getDirectUnreadCount
        (clearDirectUnreadCount
          ((fun st => incrementDirectUnreadCount st userId sourceId)^[n] s)
          userId sourceId)
        userId sourceId = 0)
  ∧ (getDirectUnreadCount (clearDirectUnreadCount s userId sourceId) userId sourceId = 0)
  ∧ (getGroupUnreadCount (clearGroupUnreadCount s userId sourceId) userId sourceId = 0)
  ∧ (fbLookup s2.direct (userId, sourceId) = none →
      clearDirectUnreadCount s2 userId sourceId = s2)
  ∧ (fbLookup s2.groups (userId, sourceId) = none →
      clearGroupUnreadCount s2 userId sourceId = s2) := by
  refine ⟨?_, ?_, ?_, ?_, ?_⟩
  · simp [getDirectUnreadCount, clearDirectUnreadCount, fbGet, fbLookup_fbErase_self]
  · simp [getDirectUnreadCount, clearDirectUnreadCount, fbGet, fbLookup_fbErase_self]
  · simp [getGroupUnreadCount, clearGroupUnreadCount, fbGet, fbLookup_fbErase_self]
  · intro h
    unfold clearDirectUnreadCount
    rw [fbErase_of_lookup_none _ _ h]
  · intro h
    unfold clearGroupUnreadCount
    rw [fbErase_of_lookup_none _ _ h]

/-- C7 witness: on the empty store, three increments then a clear read back
zero, and clearing a never-incremented source leaves the store unchanged. -/
theorem c7_counter_convergence_witness :
    fbLookup (UnreadStore.direct { direct := [], groups := [] }) (1, 2) = none
    ∧ clearDirectUnreadCount { direct := [], groups := [] } 1 2
        = { direct := [], groups := [] }
    ∧ getDirectUnreadCount
        (clearDirectUnreadCount
          ((fun st => incrementDirectUnreadCount st 1 2)^[3]
            { direct := [], groups := [] }) 1 2) 1 2 = 0 :=
  ⟨rfl,
   (c7_counter_convergence { direct := [], groups := [] }
      { direct := [], groups := [] } 1 2 3).2.2.2.1 rfl,
   (c7_counter_convergence { direct := [], groups := [] }
      { direct := [], groups := [] } 1 2 3).1⟩

/-- Fanning the per-member increment over a list that does not contain the
first component of the key leaves that node unchanged. -/
theorem fbGet_foldl_inc_not_mem (L : List Nat) (gid : Nat) (t : FbTable)
    (k : Nat × Nat) (hk : k.1 ∉ L) :
    fbGet (L.foldl (fun a m => fbInc a (m, gid)) t) k = fbGet t k := by
  revert hk
  induction L generalizing t with
  | nil => intro _; rfl
  | cons a L ih =>
      intro hk
      have h1 : k.1 ≠ a := fun h => hk (by rw [h]; exact List.mem_cons_self a L)
      have h2 : k.1 ∉ L := fun h => hk (List.mem_cons_of_mem a h)
      rw [List.foldl_cons, ih _ h2]
      exact fbGet_fbInc_other t (a, gid) k (fun h => h1 (congrArg Prod.fst h))

/-- Fanning the per-member increment over a duplicate-free list adds exactly
one to the node of each listed member. -/
theorem fbGet_foldl_inc_mem (L : List Nat) (gid : Nat) (t : FbTable) (m : Nat)
    (hnd : L.Nodup) (hm : m ∈ L) :
    fbGet (L.foldl (fun a x => fbInc a (x, gid)) t) (m, gid)
      = fbGet t (m, gid) + 1 := by
  revert hnd hm
  induction L generalizing t with
  | nil => intro _ hm; cases hm
  | cons a L ih =>
      intro hnd hm
      rw [List.foldl_cons]
      rcases List.mem_cons.mp hm with h | h
      · subst h
        have hna : m ∉ L := (List.nodup_cons.mp hnd).1
        rw [fbGet_foldl_inc_not_mem L gid _ (m, gid) hna]
        exact fbGet_fbInc_self t (m, gid)
      · rw [ih (fbInc t (a, gid)) (List.nodup_cons.mp hnd).2 h]
        have hma : m ≠ a := by
          intro he
          subst he
          exact (List.nodup_cons.mp hnd).1 h
        rw [fbGet_fbInc_other t (a, gid) (m, gid)
          (fun hh => hma (congrArg Prod.fst hh))]

/-- The group fan-out never touches the sender node. -/
theorem getGroupUnreadCount_inc_sender (s : UnreadStore) (gid fromId : Nat)
    (members : List Nat) :
    getGroupUnreadCount (incrementGroupUnreadCount s gid fromId members) fromId gid
      = getGroupUnreadCount s fromId gid := by
  unfold incrementGroupUnreadCount getGroupUnreadCount
  dsimp only
  apply fbGet_foldl_inc_not_mem
  simp [List.mem_filter]

/-- The group fan-out adds exactly one for each member other than the sender,
when the member list is duplicate-free. -/
theorem getGroupUnreadCount_inc_member (s : UnreadStore) (gid fromId : Nat)
    (members : List Nat) (m : Nat) (hnd : members.Nodup) (hm : m ∈ members)
    (hne : m ≠ fromId) :
    getGroupUnreadCount (incrementGroupUnreadCount s gid fromId members) m gid
      = getGroupUnreadCount s m gid + 1 := by
  unfold incrementGroupUnreadCount getGroupUnreadCount
  dsimp only
  apply fbGet_foldl_inc_mem
  · exact hnd.filter _
  · simp [List.mem_filter, hm, hne]

/-- Evaluation of the group-send route on its success path: with an existing
active group and a valid text body, the message is appended, broadcast is
attempted (skipped when forced to fail), and the fan-out increments run. -/
theorem sendGroup_ok_eval (st : ChatState) (sender : User) (gid : Nat)
    (text imageUrl : Option String) (pf : Bool) (now : Nat) (g : ChatGroup)
    (hg : findGroup st gid = some g) (hact : g.isActive = true)
    (ht : normalizeField text ≠ "")
    (hlen : (normalizeField text).length ≤ 1000) :
    sendGroup st sender gid text imageUrl pf now =
      (.ok { messageId := st.groupMessages.length
             firebasePath := "group_chats/" ++ toString gid },
       { st with
           groupMessages := st.groupMessages ++
             [{ id := st.groupMessages.length, group := gid, fromId := sender.id,
                text := some (normalizeField text), attachments := [],
                timestamp := now }]
           broadcast :=
             if pf then st.broadcast
             else st.broadcast
               ++ [("group_chats/" ++ toString gid, st.groupMessages.length)]
           unread := incrementGroupUnreadCount st.unread gid sender.id g.members }) := by
  unfold sendGroup
  rw [if_neg (fun h => ht h.1), if_neg (by omega), hg]
  simp only [hact, Bool.not_true, if_false, if_neg ht, msgBodyValid, textFalsy,
    List.isEmpty_nil, Bool.and_true, Bool.not_eq_true]
  simp [ht]

/-- Evaluation of the direct-send route on its success path: with an existing
recipient, the role rule satisfied and a valid text body, the message is
appended, broadcast is attempted (skipped when forced to fail), the unread
increment runs and the FCM step reports whether it attempted a push. -/
theorem sendDirect_ok_eval (st : ChatState) (sender recipient : User) (toId : Nat)
    (text imageUrl : Option String) (pf : Bool) (now : Nat)
    (hr : findUser st toId = some recipient)
    (hperm : sender.isAdmin = true ∨ recipient.isAdmin = true)
    (ht : normalizeField text ≠ "")
    (hlen : (normalizeField text).length ≤ 1000) :
    sendDirect st sender (some toId) text imageUrl pf now =
      (.ok { messageId := st.messages.length
             firebasePath := directChatPath sender.id toId
             notificationAttempted := sendMessageNotificationAttempts recipient },
       { st with
           messages := st.messages ++
             [{ id := st.messages.length, fromId := sender.id, toId := toId,
                text := some (normalizeField text), attachments := [],
                timestamp := now, readBy := [] }]
           broadcast :=
             if pf then st.broadcast
             else st.broadcast
               ++ [(directChatPath sender.id toId, st.messages.length)]
           unread := incrementDirectUnreadCount st.unread toId sender.id }) := by
  unfold sendDirect
  dsimp only
  rw [if_neg (fun h => ht h.1),
    if_neg (by omega : ¬(1000 < (normalizeField text).length)), hr]
  have hnp : ¬((!sender.isAdmin) = true ∧ (!recipient.isAdmin) = true) := by
    rcases hperm with h | h <;> simp [h]
  simp only [if_neg hnp, if_neg ht, msgBodyValid, textFalsy, List.isEmpty_nil,
    Bool.and_true, Bool.not_eq_true]
  simp [ht]

/-- C8: for every group message accepted by the group-send route, the group
unread counter of every member other than the sender is incremented by
exactly 1, and the sender counter for that group is unchanged. -/
theorem c8_group_fanout (st : ChatState) (sender : User) (gid : Nat)
    (text imageUrl : Option String) (pf : Bool) (now : Nat) (g : ChatGroup)
    (hg : findGroup st gid = some g) (hact : g.isActive = true)
    (hnd : g.members.Nodup)
    (ht : normalizeField text ≠ "")
    (hlen : (normalizeField text).length ≤ 1000) :
    (∀ m ∈ g.members, m ≠ sender.id →
      getGroupUnreadCount (sendGroup st sender gid text imageUrl pf now).2.unread m gid
        = getGroupUnreadCount st.unread m gid + 1)
    ∧ getGroupUnreadCount
        (sendGroup st sender gid text imageUrl pf now).2.unread sender.id gid
        = getGroupUnreadCount st.unread sender.id gid := by
  rw [sendGroup_ok_eval st sender gid text imageUrl pf now g hg hact ht hlen]
  constructor
  · intro m hm hne
    exact getGroupUnreadCount_inc_member st.unread gid sender.id g.members m hnd hm hne
  · exact getGroupUnreadCount_inc_sender st.unread gid sender.id g.members

/-- C8 witness: the admin (user 1) posts to the three-member group 6; the
counters of members 2 and 3 each go from 0 to 1 and the sender counter stays
0. -/
theorem c8_group_fanout_witness :
    (getGroupUnreadCount (sendGroup stC8 adminAlice 6 (some "hello") none false 0).2.unread 2 6
       = getGroupUnreadCount stC8.unread 2 6 + 1)
    ∧ (getGroupUnreadCount (sendGroup stC8 adminAlice 6 (some "hello") none false 0).2.unread 3 6
       = getGroupUnreadCount stC8.unread 3 6 + 1)
    ∧ getGroupUnreadCount (sendGroup stC8 adminAlice 6 (some "hello") none false 0).2.unread
        adminAlice.id 6
       = getGroupUnreadCount stC8.unread adminAlice.id 6 :=
  ⟨(c8_group_fanout stC8 adminAlice 6 (some "hello") none false 0 groupH rfl rfl
      (by decide) (by decide) (by decide)).1 2 (by decide) (by decide),
   (c8_group_fanout stC8 adminAlice 6 (some "hello") none false 0 groupH rfl rfl
      (by decide) (by decide) (by decide)).1 3 (by decide) (by decide),
   (c8_group_fanout stC8 adminAlice 6 (some "hello") none false 0 groupH rfl rfl
      (by decide) (by decide) (by decide)).2⟩

/-- C1 counterexample: the blocked regular user carol (three recorded
violations, isBlocked set) sends to the admin through POST /send with a valid
token; the request is not rejected and the message is persisted to the
durable store, refuting the claim that a blocked sender is rejected before
persistence. -/
theorem c1_counterexample :
    blockedCarol.isUserBlocked = true
    ∧ postSend stC1 3 (some 1) (some "hello") none false 0
        = some (sendDirect stC1 blockedCarol (some 1) (some "hello") none false 0)
    ∧ isOkE (sendDirect stC1 blockedCarol (some 1) (some "hello") none false 0).1 = true
    ∧ (sendDirect stC1 blockedCarol (some 1) (some "hello") none false 0).2.messages.length = 1 :=
  ⟨rfl, rfl, rfl, rfl⟩

/-- C1 amended: the direct-send route never reads the sender
securityProfile — replacing it (in particular setting isBlocked) leaves both
the response and the resulting state unchanged, so a blocked sender holding a
valid token is processed exactly like an unblocked one; blocked-sender
rejection happens only in the phone-auth and secure-messaging layers. -/
theorem c1_send_ignores_blocked (st : ChatState) (sender : User) (sp : SecurityProfile)
    (reqTo : Option Nat) (text imageUrl : Option String) (pf : Bool) (now : Nat) :
    sendDirect st { sender with securityProfile := sp } reqTo text imageUrl pf now
      = sendDirect st sender reqTo text imageUrl pf now := rfl

/-- The rejection path of the direct-send route when a regular sender targets
a regular recipient. -/
theorem sendDirect_forbidden_eval (st : ChatState) (sender recipient : User)
    (toId : Nat) (text imageUrl : Option String) (pf : Bool) (now : Nat)
    (hr : findUser st toId = some recipient)
    (hs : sender.isAdmin = false) (hra : recipient.isAdmin = false)
    (ht : normalizeField text ≠ "")
    (hlen : (normalizeField text).length ≤ 1000) :
    sendDirect st sender (some toId) text imageUrl pf now
      = (.error .forbiddenRegularToNonAdmin, st) := by
  unfold sendDirect
  dsimp only
  rw [if_neg (fun h => ht h.1),
    if_neg (by omega : ¬(1000 < (normalizeField text).length)), hr]
  have hc : (!sender.isAdmin) = true ∧ (!recipient.isAdmin) = true := by
    rw [hs, hra]
    exact ⟨rfl, rfl⟩
  simp only [if_pos hc]

/-- C2: with a valid body and an existing recipient, a regular sender
succeeds exactly when the recipient is an admin; when the recipient is
regular the route answers Forbidden and the whole state, in particular the
durable message store, is unchanged; an admin sender succeeds for any
existing recipient, so in particular for every non-blocked one. -/
theorem c2_permission (st : ChatState) (sender recipient : User) (toId : Nat)
    (text imageUrl : Option String) (pf : Bool) (now : Nat)
    (hsb : sender.isUserBlocked = false)
    (hr : findUser st toId = some recipient)
    (hrb : recipient.isUserBlocked = false)
    (ht : normalizeField text ≠ "")
    (hlen : (normalizeField text).length ≤ 1000) :
    (sender.isAdmin = false →
      ((isOkE (sendDirect st sender (some toId) text imageUrl pf now).1 = true)
        ↔ recipient.isAdmin = true))
  ∧ (sender.isAdmin = false → recipient.isAdmin = false →
      sendDirect st sender (some toId) text imageUrl pf now
        = (.error .forbiddenRegularToNonAdmin, st))
  ∧ (sender.isAdmin = true →
      isOkE (sendDirect st sender (some toId) text imageUrl pf now).1 = true) := by
  refine ⟨?_, ?_, ?_⟩
  · intro hs
    constructor
    · intro hok
      by_contra hra
      rw [sendDirect_forbidden_eval st sender recipient toId text imageUrl pf now hr hs
        (by simpa using hra) ht hlen] at hok
      simp [isOkE] at hok
    · intro hra
      rw [sendDirect_ok_eval st sender recipient toId text imageUrl pf now hr
        (Or.inr hra) ht hlen]
      rfl
  · intro hs hra
    exact sendDirect_forbidden_eval st sender recipient toId text imageUrl pf now hr hs
      hra ht hlen
  · intro hs
    rw [sendDirect_ok_eval st sender recipient toId text imageUrl pf now hr
      (Or.inl hs) ht hlen]
    rfl

/-- C2 witness: bob (regular) to alice (admin) succeeds; bob to bob himself
as a stand-in regular recipient is rejected with Forbidden and the state is
unchanged; alice (admin) to bob succeeds. -/
theorem c2_permission_witness :
    isOkE (sendDirect stAB regularBob (some 1) (some "hi") none false 0).1 = true
    ∧ sendDirect stAB regularBob (some 2) (some "hi") none false 0
        = (.error .forbiddenRegularToNonAdmin, stAB)
    ∧ isOkE (sendDirect stAB adminAlice (some 2) (some "hi") none false 0).1 = true :=
  ⟨((c2_permission stAB regularBob adminAlice 1 (some "hi") none false 0 rfl rfl rfl
      (by decide) (by decide)).1 rfl).mpr rfl,
   (c2_permission stAB regularBob regularBob 2 (some "hi") none false 0 rfl rfl rfl
      (by decide) (by decide)).2.1 rfl rfl,
   (c2_permission stAB adminAlice regularBob 2 (some "hi") none false 0 rfl rfl rfl
      (by decide) (by decide)).2.2 rfl⟩

/-- C5 counterexample: user 2 is not a member of active group 5, yet the
group-send route accepts the message and persists it, refuting the claim
that the sender must be a current member. -/
theorem c5_counterexample :
    regularBob.id ∉ groupG.members
    ∧ isOkE (sendGroup stC5 regularBob 5 (some "hi") none false 0).1 = true
    ∧ (sendGroup stC5 regularBob 5 (some "hi") none false 0).2.groupMessages.length = 1 :=
  ⟨by decide, rfl, rfl⟩

/-- C5 amended: with a valid body, the group-send route rejects an absent
group with NotFound and an inactive group with a 400 rejection, leaving the
state unchanged; for an existing active group it accepts and persists the
message for every authenticated sender, member or not — membership is never
checked. -/
theorem c5_group_send_rules (st : ChatState) (sender : User) (gid : Nat)
    (g : ChatGroup) (text imageUrl : Option String) (pf : Bool) (now : Nat)
    (ht : normalizeField text ≠ "")
    (hlen : (normalizeField text).length ≤ 1000) :
    (findGroup st gid = none →
      sendGroup st sender gid text imageUrl pf now = (.error .groupNotFound, st))
  ∧ (findGroup st gid = some g → g.isActive = false →
      sendGroup st sender gid text imageUrl pf now = (.error .groupInactive, st))
  ∧ (findGroup st gid = some g → g.isActive = true →
      isOkE (sendGroup st sender gid text imageUrl pf now).1 = true
      ∧ (sendGroup st sender gid text imageUrl pf now).2.groupMessages
          = st.groupMessages ++
            [{ id := st.groupMessages.length, group := gid, fromId := sender.id,
               text := some (normalizeField text), attachments := [],
               timestamp := now }]) := by
  refine ⟨?_, ?_, ?_⟩
  · intro hg
    unfold sendGroup
    rw [if_neg (fun h => ht h.1),
      if_neg (by omega : ¬(1000 < (normalizeField text).length)), hg]
  · intro hg hact
    unfold sendGroup
    rw [if_neg (fun h => ht h.1),
      if_neg (by omega : ¬(1000 < (normalizeField text).length)), hg]
    simp only [hact, Bool.not_false, if_pos]
  · intro hg hact
    rw [sendGroup_ok_eval st sender gid text imageUrl pf now g hg hact ht hlen]
    exact ⟨rfl, rfl⟩

/-- C5 witness: group 99 is absent (NotFound), group 7 is inactive
(rejected, state unchanged), and non-member user 2 posting to active group 5
succeeds. -/
theorem c5_group_send_rules_witness :
    sendGroup stC5 regularBob 99 (some "hi") none false 0 = (.error .groupNotFound, stC5)
    ∧ sendGroup stC5 regularBob 7 (some "hi") none false 0 = (.error .groupInactive, stC5)
    ∧ isOkE (sendGroup stC5 regularBob 5 (some "hi") none false 0).1 = true :=
  ⟨(c5_group_send_rules stC5 regularBob 99 groupG (some "hi") none false 0
      (by decide) (by decide)).1 rfl,
   (c5_group_send_rules stC5 regularBob 7 groupOld (some "hi") none false 0
      (by decide) (by decide)).2.1 rfl rfl,
   ((c5_group_send_rules stC5 regularBob 5 groupG (some "hi") none false 0
      (by decide) (by decide)).2.2 rfl rfl).1⟩

/-- C6: forcing the broadcast publish step to fail changes nothing the caller
sees: the direct send returns the same 201 payload (persisted message id,
broadcast path, notification flag) as with a working broadcast, and the
message is retrievable from the durable store through findConversation; the
same holds for the group send and findByGroup. The publish failure is
swallowed inside pushToFirebase / pushGroupToFirebase and never surfaces. -/
theorem c6_broadcast_failure (st : ChatState) (sd sg recipient : User)
    (toId gid : Nat) (g : ChatGroup) (text imageUrl : Option String) (now : Nat)
    (hr : findUser st toId = some recipient)
    (hperm : sd.isAdmin = true ∨ recipient.isAdmin = true)
    (hg : findGroup st gid = some g) (hact : g.isActive = true)
    (ht : normalizeField text ≠ "")
    (hlen : (normalizeField text).length ≤ 1000) :
    ((sendDirect st sd (some toId) text imageUrl true now).1
        = (sendDirect st sd (some toId) text imageUrl false now).1)
  ∧ ((sendDirect st sd (some toId) text imageUrl true now).1
        = .ok { messageId := st.messages.length
                firebasePath := directChatPath sd.id toId
                notificationAttempted := sendMessageNotificationAttempts recipient })
  ∧ (∃ m ∈ findConversation (sendDirect st sd (some toId) text imageUrl true now).2
        sd.id toId, m.id = st.messages.length)
  ∧ ((sendGroup st sg gid text imageUrl true now).1
        = (sendGroup st sg gid text imageUrl false now).1)
  ∧ ((sendGroup st sg gid text imageUrl true now).1
        = .ok { messageId := st.groupMessages.length
                firebasePath := "group_chats/" ++ toString gid })
  ∧ (∃ m ∈ findByGroup (sendGroup st sg gid text imageUrl true now).2 gid,
        m.id = st.groupMessages.length) := by
  rw [sendDirect_ok_eval st sd recipient toId text imageUrl true now hr hperm ht hlen,
    sendDirect_ok_eval st sd recipient toId text imageUrl false now hr hperm ht hlen,
    sendGroup_ok_eval st sg gid text imageUrl true now g hg hact ht hlen,
    sendGroup_ok_eval st sg gid text imageUrl false now g hg hact ht hlen]
  refine ⟨rfl, rfl, ?_, rfl, rfl, ?_⟩
  · exact ⟨⟨st.messages.length, sd.id, toId, some (normalizeField text), [], now, []⟩,
      by simp [findConversation], rfl⟩
  · exact ⟨⟨st.groupMessages.length, gid, sg.id, some (normalizeField text), [], now⟩,
      by simp [findByGroup], rfl⟩

/-- C6 witness: in the concrete state, the direct send with a failing
broadcast returns the same response as with a working one, and the message is
still retrievable from the durable store. -/
theorem c6_broadcast_failure_witness :
    ((sendDirect stC8 regularBob (some 1) (some "hi") none true 0).1
        = (sendDirect stC8 regularBob (some 1) (some "hi") none false 0).1)
    ∧ (∃ m ∈ findConversation
        (sendDirect stC8 regularBob (some 1) (some "hi") none true 0).2
        regularBob.id 1, m.id = stC8.messages.length)
    ∧ ((sendGroup stC8 adminAlice 6 (some "hi") none true 0).1
        = (sendGroup stC8 adminAlice 6 (some "hi") none false 0).1) :=
  ⟨(c6_broadcast_failure stC8 regularBob adminAlice adminAlice 1 6 groupH
      (some "hi") none 0 rfl (Or.inr rfl) rfl rfl (by decide) (by decide)).1,
   (c6_broadcast_failure stC8 regularBob adminAlice adminAlice 1 6 groupH
      (some "hi") none 0 rfl (Or.inr rfl) rfl rfl (by decide) (by decide)).2.2.1,
   (c6_broadcast_failure stC8 regularBob adminAlice adminAlice 1 6 groupH
      (some "hi") none 0 rfl (Or.inr rfl) rfl rfl (by decide) (by decide)).2.2.2.1⟩

/-- C9 counterexample: dana is an admin holding an active FCM token; when bob
sends to dana, the notification step attempts a push (the response reports an
attempted FCM notification), refuting the claim that push is never sent to an
admin recipient. -/
theorem c9_counterexample :
    adminDana.isAdmin = true
    ∧ (sendDirect stC9 regularBob (some 4) (some "hi") none false 0).1
        = .ok { messageId := 0, firebasePath := "chats/2_4",
                notificationAttempted := true } :=
  ⟨rfl, rfl⟩

/-- C9 amended: the notification step of the direct send attempts a push
exactly when the recipient holds at least one active FCM token; the recipient
role is never consulted, so an admin with a registered token is pushed to and
a regular user without tokens is not. -/
theorem c9_notification_by_tokens (st : ChatState) (sender recipient : User)
    (toId : Nat) (text imageUrl : Option String) (pf : Bool) (now : Nat)
    (hr : findUser st toId = some recipient)
    (hperm : sender.isAdmin = true ∨ recipient.isAdmin = true)
    (ht : normalizeField text ≠ "")
    (hlen : (normalizeField text).length ≤ 1000) :
    (sendDirect st sender (some toId) text imageUrl pf now).1
      = .ok { messageId := st.messages.length
              firebasePath := directChatPath sender.id toId
              notificationAttempted := !recipient.getActiveFcmTokens.isEmpty } := by
  rw [sendDirect_ok_eval st sender recipient toId text imageUrl pf now hr hperm ht hlen]
  rfl

/-- C9 witness: applied to the admin recipient with a token, the notification
flag equals token presence. -/
theorem c9_notification_by_tokens_witness :
    (sendDirect stC9 regularBob (some 4) (some "hi") none false 0).1
      = .ok { messageId := stC9.messages.length
              firebasePath := directChatPath regularBob.id 4
              notificationAttempted := !adminDana.getActiveFcmTokens.isEmpty } :=
  c9_notification_by_tokens stC9 regularBob adminDana 4 (some "hi") none false 0
    rfl (Or.inr rfl) (by decide) (by decide)

/-- C10 counterexample: the admin alice sends to herself; the route accepts
and persists a message with from = to, refuting the part of the invariant
that requires from and to to differ. -/
theorem c10_counterexample :
    adminAlice.isAdmin = true
    ∧ isOkE (sendDirect stC10 adminAlice (some 1) (some "note") none false 0).1 = true
    ∧ (sendDirect stC10 adminAlice (some 1) (some "note") none false 0).2.messages.map
        (fun m => (m.fromId, m.toId)) = [(1, 1)] :=
  ⟨rfl, rfl, rfl⟩

/-- C10 amended: every message the direct-send route persists satisfies the
non-empty-body schema invariant (text or attachments present), but from = to
is never checked: an admin sender targeting themselves succeeds and the
persisted message has from = to; a regular sender targeting themselves is
rejected, only because a regular recipient is, in general, rejected. -/
theorem c10_message_invariants (st : ChatState) (sender : User) (reqTo : Option Nat)
    (text imageUrl : Option String) (pf : Bool) (now : Nat)
    (hself : findUser st sender.id = some sender)
    (ht : normalizeField text ≠ "")
    (hlen : (normalizeField text).length ≤ 1000) :
    (∀ m ∈ (sendDirect st sender reqTo text imageUrl pf now).2.messages,
      m ∈ st.messages ∨ msgBodyValid m.text m.attachments = true)
  ∧ (sender.isAdmin = true →
      (sendDirect st sender (some sender.id) text imageUrl pf now).1
        = .ok { messageId := st.messages.length
                firebasePath := directChatPath sender.id sender.id
                notificationAttempted := sendMessageNotificationAttempts sender }
      ∧ (sendDirect st sender (some sender.id) text imageUrl pf now).2.messages.getLast?
          = some { id := st.messages.length, fromId := sender.id, toId := sender.id,
                   text := some (normalizeField text), attachments := [],
                   timestamp := now, readBy := [] })
  ∧ (sender.isAdmin = false →
      sendDirect st sender (some sender.id) text imageUrl pf now
        = (.error .forbiddenRegularToNonAdmin, st)) := by
  refine ⟨?_, ?_, ?_⟩
  · intro m hm
    rcases reqTo with _ | toId
    · exact Or.inl hm
    · unfold sendDirect at hm
      dsimp only at hm
      rw [if_neg (fun h => ht h.1),
        if_neg (by omega : ¬(1000 < (normalizeField text).length))] at hm
      rcases hf : findUser st toId with _ | r
      · rw [hf] at hm
        exact Or.inl hm
      · rw [hf] at hm
        dsimp only at hm
        by_cases hrole : (!sender.isAdmin) = true ∧ (!r.isAdmin) = true
        · rw [if_pos hrole] at hm
          exact Or.inl hm
        · rw [if_neg hrole, if_neg ht,
            if_neg (by simp [msgBodyValid, textFalsy, ht] :
              ¬((!msgBodyValid (some (normalizeField text)) []) = true))] at hm
          dsimp only at hm
          rcases List.mem_append.mp hm with h | h
          · exact Or.inl h
          · right
            rw [List.mem_singleton.mp h]
            simp [msgBodyValid, textFalsy, ht]
  · intro hadm
    constructor
    · rw [sendDirect_ok_eval st sender sender sender.id text imageUrl pf now hself
        (Or.inl hadm) ht hlen]
    · rw [sendDirect_ok_eval st sender sender sender.id text imageUrl pf now hself
        (Or.inl hadm) ht hlen]
      simp
  · intro hadm
    exact sendDirect_forbidden_eval st sender sender sender.id text imageUrl pf now
      hself hadm hadm ht hlen

/-- C10 witness: the admin self-send persists a from = to message whose body
is the trimmed text. -/
theorem c10_message_invariants_witness :
    adminAlice.isAdmin = true
    ∧ ((sendDirect stC10 adminAlice (some adminAlice.id) (some "note") none
          false 0).2).messages.getLast?
        = some { id := stC10.messages.length, fromId := adminAlice.id,
                 toId := adminAlice.id, text := some (normalizeField (some "note")),
                 attachments := [], timestamp := 0, readBy := [] } :=
  ⟨rfl,
   ((c10_message_invariants stC10 adminAlice (some adminAlice.id) (some "note") none
      false 0 rfl (by decide) (by decide)).2.1 rfl).2⟩

/-- Recording a violation never changes the role flag. -/
theorem recordSecurityViolation_isAdmin (u : User) (vtype : String) (time : Nat) :
    (u.recordSecurityViolation vtype time).isAdmin = u.isAdmin := rfl

/-- Recording a violation never touches the active session. -/
theorem recordSecurityViolation_activeSession (u : User) (vtype : String) (time : Nat) :
    (u.recordSecurityViolation vtype time).activeSession = u.activeSession := rfl

/-- Creating a session never touches the security profile. -/
theorem createDeviceSession_securityProfile (u : User) (fp tok : String) (t : Nat) :
    (u.createDeviceSession fp tok t).securityProfile = u.securityProfile := by
  unfold User.createDeviceSession
  split_ifs <;> rfl

/-- Creating a session never changes the role flag. -/
theorem createDeviceSession_isAdmin (u : User) (fp tok : String) (t : Nat) :
    (u.createDeviceSession fp tok t).isAdmin = u.isAdmin := by
  unfold User.createDeviceSession
  split_ifs <;> rfl

/-- For a regular user, creating a session installs the fresh descriptor. -/
theorem createDeviceSession_activeSession (u : User) (fp tok : String) (t : Nat)
    (h : u.isAdmin = false) :
    (u.createDeviceSession fp tok t).activeSession = some ⟨fp, tok, t, true⟩ := by
  unfold User.createDeviceSession
  rw [if_neg (by simp [h])]

/-- Revoking a session never touches the security profile. -/
theorem revokeDeviceSession_securityProfile (u : User) :
    u.revokeDeviceSession.securityProfile = u.securityProfile := by
  unfold User.revokeDeviceSession
  cases u.activeSession <;> rfl

/-- Revoking a session never changes the role flag. -/
theorem revokeDeviceSession_isAdmin (u : User) :
    u.revokeDeviceSession.isAdmin = u.isAdmin := by
  unfold User.revokeDeviceSession
  cases u.activeSession <;> rfl

/-- C3 counterexample: a regular user who already carries two recorded
violations logs in from d1 and then from d2. The second login records the
multiple_login_attempt violation, which is the third event and auto-blocks
the account before the new session is issued; the subsequent request carrying
the fresh d2 token is then rejected as blocked rather than succeeding, so the
claim fails for this user. -/
theorem c3_counterexample :
    c3u0.isAdmin = false
    ∧ c3u0.isUserBlocked = false
    ∧ loginUser c3u0 "uidE" "d1" "tokA" 0 = .ok c3u1
    ∧ loginUser c3u1 "uidE" "d2" "tokB" 1 = .ok c3u2
    ∧ multipleLoginCount c3u2 = multipleLoginCount c3u0 + 1
    ∧ validateSessionRequest c3u2 "d2" "tokB" = .error .blocked :=
  ⟨rfl, rfl, rfl, rfl, rfl, rfl⟩

/-- C3 amended: for a regular, unblocked user without an open session and
with at most one prior recorded violation (so the recorded
multiple_login_attempt cannot reach the auto-block threshold), a login from
fingerprint fp1 followed by a login from a different fingerprint fp2 leaves
the user in a state where the fp1 credentials are rejected with
InvalidSession, the fp2 credentials validate, and exactly one
multiple_login_attempt violation was appended to the log. -/
theorem c3_single_session (u u1 u2 : User) (uid fp1 fp2 tok1 tok2 : String) (t1 t2 : Nat)
    (hreg : u.isAdmin = false)
    (hnb : u.securityProfile.isBlocked = false)
    (hsess : u.activeSession = none)
    (hviol : u.securityProfile.securityViolations.length ≤ 1)
    (hfp : fp1 ≠ fp2)
    (h1 : loginUser u uid fp1 tok1 t1 = .ok u1)
    (h2 : loginUser u1 uid fp2 tok2 t2 = .ok u2) :
    validateSessionRequest u2 fp1 tok1 = .error .invalidSession
    ∧ validateSessionRequest u2 fp2 tok2 = .ok ()
    ∧ multipleLoginCount u2 = multipleLoginCount u + 1
    ∧ u2.securityProfile.securityViolations.length
        = u.securityProfile.securityViolations.length + 1 := by
  by_cases huid : u.firebaseUid = uid
  case neg =>
    exfalso
    unfold loginUser at h1
    rw [if_neg (by simp [User.isUserBlocked, hnb]), if_pos huid] at h1
    exact absurd h1 (by simp)
  case pos =>
    unfold loginUser at h1
    rw [if_neg (by simp [User.isUserBlocked, hnb]), if_neg (by simp [huid]), hsess] at h1
    dsimp only at h1
    injection h1 with h1'
    have hu1 : u1 = { u with activeSession := some ⟨fp1, tok1, t1, true⟩ } := by
      rw [← h1']
      unfold User.createDeviceSession
      rw [if_neg (by simp [hreg])]
    subst hu1
    unfold loginUser at h2
    rw [if_neg (by simp [User.isUserBlocked, hnb]), if_neg (by simp [huid])] at h2
    dsimp only at h2
    rw [if_pos ⟨rfl, hfp⟩] at h2
    injection h2 with h2'
    have hwsp : ({ u with activeSession := some ⟨fp1, tok1, t1, true⟩ }
        : User).revokeDeviceSession.securityProfile = u.securityProfile := by
      rw [revokeDeviceSession_securityProfile]
    have hwadm : ({ u with activeSession := some ⟨fp1, tok1, t1, true⟩ }
        : User).revokeDeviceSession.isAdmin = false := by
      rw [revokeDeviceSession_isAdmin]
      exact hreg
    have hviol2 : u2.securityProfile.securityViolations
        = u.securityProfile.securityViolations
          ++ [⟨"multiple_login_attempt", t2, false⟩] := by
      rw [← h2', createDeviceSession_securityProfile,
        recordSecurityViolation_violations, hwsp]
    have hblocked : u2.securityProfile.isBlocked = false := by
      rw [← h2', createDeviceSession_securityProfile,
        recordSecurityViolation_isBlocked, hwsp]
      rw [if_neg (by omega)]
      exact hnb
    have hadm2 : u2.isAdmin = false := by
      rw [← h2', createDeviceSession_isAdmin, recordSecurityViolation_isAdmin, hwadm]
    have hact2 : u2.activeSession = some ⟨fp2, tok2, t2, true⟩ := by
      rw [← h2']
      apply createDeviceSession_activeSession
      rw [recordSecurityViolation_isAdmin, hwadm]
    have hbeq : (fp2 == fp1) = false := beq_eq_false_iff_ne.mpr (Ne.symm hfp)
    refine ⟨?_, ?_, ?_, ?_⟩
    · simp [validateSessionRequest, User.isUserBlocked, hblocked,
        User.validateDeviceSession, hadm2, hact2, hbeq]
    · simp [validateSessionRequest, User.isUserBlocked, hblocked,
        User.validateDeviceSession, hadm2, hact2]
    · rw [multipleLoginCount, multipleLoginCount, hviol2]
      simp [List.filter_append]
    · rw [hviol2]
      simp

/-- C3 witness: the clean regular user bob logs in from d1 then d2; the d1
token is rejected with InvalidSession, the d2 token validates, and exactly
one multiple_login_attempt entry was appended. -/
theorem c3_single_session_witness :
    validateSessionRequest c3b2 "d1" "tokA" = .error .invalidSession
    ∧ validateSessionRequest c3b2 "d2" "tokB" = .ok ()
    ∧ multipleLoginCount c3b2 = multipleLoginCount regularBob + 1 :=
  have h := c3_single_session regularBob c3b1 c3b2 "uidB" "d1" "d2" "tokA" "tokB" 0 1
    rfl rfl rfl (by decide) (by decide) rfl rfl
  ⟨h.1, h.2.1, h.2.2.1⟩
